import Mathlib

/-!
Verification development for the discordBotGo media-playback engine.

The Go sources are shallowly embedded:
* `internal/music/storage/firestore/service.go` — the Firestore-backed song
  store (`GetSong`, `SetSong`, `UpsertSongIncPlaybacks`, `GetRandomSongs`);
* the `player.Service` radio/recovery coordinator from the same file
  (`Play`, `SetRadio`, `playRandomSong`, `handleError`, `SubscribeOnErrors`,
  `Stop`, `Disconnect`);
* `internal/music/search/youtube/service.go` — the resolver
  (`EnsureStreamInfo`, `songFromInfo`, `getYTDLImages`).

External collaborators (the Firestore client, the YouTube data API, the ytdl
library, the Discord voice transport and the `Player` pipeline) are embedded
as oracles: explicit function parameters supplying their responses.  Stateful
Go code becomes explicit state passing; `error` returns become `Except`;
the recursive radio retry is indexed by explicit fuel.
-/

set_option autoImplicit false

namespace DiscordBot

/-- Error values.  Go errors are compared with `errors.Is`, which walks the
wrap chain produced by `errors.Wrap`; the sentinel errors of the repository
(`ErrNotConnected`, `ErrQueueEmpty`, `audio.ErrManualStop`, `io.EOF`,
`firestore.ErrNotFound`, `youtube.ErrSongNotFound`) are base constructors and
ad-hoc `errors.New` values carry their message. -/
inductive ErrBase where
  | notConnected
  | queueEmpty
  | manualStop
  | eof
  | notFound
  | songNotFound
  | other (msg : String)
deriving Repr, DecidableEq, BEq

/-- An error is a sentinel or a `errors.Wrap(cause, msg)` chain. -/
inductive Err where
  | base (b : ErrBase)
  | wrap (msg : String) (cause : Err)
deriving Repr, DecidableEq, BEq

/-- `errors.Is(e, target)`: the wrap chain of `e` ends in `target`. -/
def Err.isErr : Err → ErrBase → Bool
  | .base b, t => b == t
  | .wrap _ c, t => c.isErr t

/-- `pkg.SongID`: stable identity (per-service id plus service name). -/
structure SongID where
  id : String
  service : String
deriving Repr, DecidableEq, BEq, Inhabited

/-- `pkg.Song`.  `Duration` (a Go `float64` of seconds) and the `LastPlay`
timestamp are abstracted to integers: the claims only copy and compare them
to their zero values, no floating-point arithmetic is performed on them. -/
structure Song where
  title : String
  url : String
  service : String
  artistName : String
  artistURL : String
  artworkURL : String
  thumbnailURL : String
  streamURL : String
  id : SongID
  duration : Int
  playbacks : Int
  lastPlay : Int
deriving Repr, DecidableEq, BEq, Inhabited

/-- Modelled from the spec: `pkg.Song.MergeNoOverride` lives in
`internal/pkg`, which is not among the provided sources.  The spec requires
that merging "must not override already-populated fields" and that the
stream reference is "never overwritten once non-empty by a lower-priority
source", so each field of `song` keeps its value when populated (non-empty
string / non-zero number) and is filled from `old` otherwise; a `nil` old
song leaves `song` unchanged.  The identity is merged as a unit, populated
when its per-service id is non-empty. -/
def mergeNoOverride (song : Song) (old : Option Song) : Song :=
  match old with
  | none => song
  | some o =>
    { title := if song.title = "" then o.title else song.title
      url := if song.url = "" then o.url else song.url
      service := if song.service = "" then o.service else song.service
      artistName := if song.artistName = "" then o.artistName else song.artistName
      artistURL := if song.artistURL = "" then o.artistURL else song.artistURL
      artworkURL := if song.artworkURL = "" then o.artworkURL else song.artworkURL
      thumbnailURL := if song.thumbnailURL = "" then o.thumbnailURL else song.thumbnailURL
      streamURL := if song.streamURL = "" then o.streamURL else song.streamURL
      id := if song.id.id = "" then o.id else song.id
      duration := if song.duration = 0 then o.duration else song.duration
      playbacks := if song.playbacks = 0 then o.playbacks else song.playbacks
      lastPlay := if song.lastPlay = 0 then o.lastPlay else song.lastPlay }

/-- Modelled from the spec: `SongsCache.KeyFromID` (in `internal/pkg`, not
among the sources) derives the cache key from the stable identity. -/
def keyFromID (i : SongID) : String :=
  i.id ++ "_" ++ i.service

/-- Association-list lookup (embeds Go map reads and Firestore document
lookups keyed by value equality). -/
def assocGet {α β : Type} [DecidableEq α] : List (α × β) → α → Option β
  | [], _ => none
  | (k, v) :: rest, key => if k = key then some v else assocGet rest key

/-- Association-list update: overwrite the binding of `key` or append it. -/
def assocSet {α β : Type} [DecidableEq α] : List (α × β) → α → β → List (α × β)
  | [], key, v => [(key, v)]
  | (k, w) :: rest, key, v =>
    if k = key then (key, v) :: rest else (k, w) :: assocSet rest key v

/-- State of the Firestore `Service`: the in-process songs cache (keyed by
`KeyFromID`), the remote song documents (the Firestore client is embedded as
an in-memory map keyed by identity, failing only with not-found), and the
`updated` flag set by `setUpdate`. -/
structure FsState where
  cache : List (String × Song)
  db : List (SongID × Song)
  updated : Bool
deriving Repr, Inhabited, DecidableEq

/-- `firestore.Service.GetSong`: cache hit returns the cached song; otherwise
the document is fetched, `ErrNotFound` when absent, and a hit is written back
to the cache. -/
def getSong (st : FsState) (i : SongID) : Except Err Song × FsState :=
  match assocGet st.cache (keyFromID i) with
  | some s => (.ok s, st)
  | none =>
    match assocGet st.db i with
    | none => (.error (.base .notFound), st)
    | some song => (.ok song, { st with cache := assocSet st.cache (keyFromID i) song })

/-- `firestore.Service.SetSong`: marks the short cache dirty, writes the
document and refreshes the cache entry. -/
def setSong (st : FsState) (song : Song) : FsState :=
  { updated := true
    db := assocSet st.db song.id song
    cache := assocSet st.cache (keyFromID song.id) song }

/-- `firestore.Service.UpsertSongIncPlaybacks`: fetch the old record (a
missing record is tolerated), merge it into the new one without overriding
populated fields, increment the play-count and store the result, returning
the updated count. -/
def upsertSongIncPlaybacks (st : FsState) (song : Song) : Except Err Int × FsState :=
  match getSong st song.id with
  | (.error e, st2) =>
    if e = .base .notFound then
      let merged := mergeNoOverride song none
      let merged2 := { merged with playbacks := merged.playbacks + 1 }
      (.ok merged2.playbacks, setSong st2 merged2)
    else
      (.error (.wrap "failed to get song from db" e), st2)
  | (.ok old, st2) =>
    let merged := mergeNoOverride song (some old)
    let merged2 := { merged with playbacks := merged.playbacks + 1 }
    (.ok merged2.playbacks, setSong st2 merged2)

/-- The `songsShort` cache of preloaded song identities used by
`GetRandomSongs`. -/
structure ShortCache where
  list : List SongID
deriving Repr, Inhabited

/-- The selection loop of `GetRandomSongs`: while fewer than `n` distinct
identities are collected and the cooldown has not expired, draw a random
index (the `rand.Intn` stream is the oracle `rnd`, reduced modulo the list
length) and insert the identity into the set (a Go map keyed by the string
id; insertion order models iteration order). -/
def pickRandomIDs (short : List SongID) (rnd : Nat → Nat) (n : Nat) :
    Nat → Nat → List (String × SongID) → List (String × SongID)
  | _, 0, set => set
  | k, cooldown + 1, set =>
    if set.length < n then
      let sid := short.getD (rnd k % short.length) default
      pickRandomIDs short rnd n (k + 1) cooldown (assocSet set sid.id sid)
    else set

/-- The collection phase of `GetRandomSongs`: fetch each selected identity
through `GetSong`, failing on the first error. -/
def collectSongs (st : FsState) : List SongID → Except Err (List Song) × FsState
  | [] => (.ok [], st)
  | i :: rest =>
    match getSong st i with
    | (.error e, st2) => (.error (.wrap "get song failed" e), st2)
    | (.ok s, st2) =>
      match collectSongs st2 rest with
      | (.error e, st3) => (.error e, st3)
      | (.ok songs, st3) => (.ok (s :: songs), st3)

/-- `firestore.Service.GetRandomSongs`: with an empty preloaded list the
provider-exhaustion error `no preloaded songs` is returned; otherwise up to
`n` distinct identities are sampled (cooldown `n * 10`) and resolved to
songs. -/
def getRandomSongs (st : FsState) (short : ShortCache) (rnd : Nat → Nat) (n : Nat) :
    Except Err (List Song) × FsState :=
  if short.list.length = 0 then
    (.error (.base (.other "no preloaded songs")), st)
  else
    collectSongs st ((pickRandomIDs short.list rnd n 0 (n * 10) []).map Prod.snd)

/-- A thumbnail of the ytdl library: URL and pixel height. -/
structure Thumb where
  url : String
  height : Nat
deriving Repr, DecidableEq, Inhabited

/-- An audio/video format of the ytdl library; only the fields the source
inspects are kept: the itag number it sorts by, the audio-channel count
filtered by `WithAudioChannels`, and the MIME type filtered by `Type`. -/
structure Format where
  itagNo : Int
  audioChannels : Nat
  mimeType : String
deriving Repr, DecidableEq, Inhabited

/-- The video metadata returned by `ytdl.GetVideo`. -/
structure VideoInfo where
  id : String
  title : String
  author : String
  duration : Int
  formats : List Format
  thumbnails : List Thumb
deriving Repr, DecidableEq, Inhabited

/-- Constant `videoPrefix` of the youtube search service. -/
def videoURLBase : String := "https://youtube.com/watch?v="

/-- Constant `videoFormat` of the youtube search service. -/
def videoFormatExt : String := ".m4a"

/-- Constant `videoType` of the youtube search service. -/
def videoTypeAudio : String := "audio/mp4"

/-- `getYTDLImages`: pick the thumbnail of maximal height (first wins on
ties), or empty strings when there are none; used for both artwork and
thumbnail. -/
def getYTDLImages (ts : List Thumb) : String × String :=
  match ts with
  | [] => ("", "")
  | t0 :: rest =>
    let best := (t0 :: rest).foldl (fun acc t => if t.height > acc.height then t else acc) t0
    (best.url, best.url)

/-- `songFromInfo`: the additional song metadata derived from the ytdl video
info (`pkg.ServiceYouTube` is embedded as the string `youtube`). -/
def songFromInfo (v : VideoInfo) : Song :=
  let img := getYTDLImages v.thumbnails
  { title := v.title
    url := videoURLBase ++ v.id
    service := "youtube"
    artistName := v.author
    artistURL := ""
    artworkURL := img.1
    thumbnailURL := img.2
    streamURL := ""
    id := { id := v.id, service := "youtube" }
    duration := v.duration
    playbacks := 0
    lastPlay := 0 }

/-- The element of minimal `itagNo`, first among ties: the result of
`sort.SliceStable` by `ItagNo` followed by taking index `0`. -/
def minByItag (f0 : Format) (rest : List Format) : Format :=
  rest.foldl (fun acc f => if f.itagNo < acc.itagNo then f else acc) f0

/-- The format picked on the download path: the last element after the ytdl
library's own `Formats.Sort`.  The library sort is external code; its order
does not affect any Song field tracked by the claims, so the pre-sort order
is used. -/
def lastFormat (f0 : Format) (rest : List Format) : Format :=
  (f0 :: rest).getLastD f0

/-- Oracles of the youtube resolver `YouTube`: the songs cache (`cache.Get`
by `KeyFromID` key), the ytdl metadata call, the `Download` configuration,
and the two fallible library calls of the two branches. -/
structure YtEnv where
  cache : String → Option Song
  getVideo : String → Except Err VideoInfo
  download : Bool
  outputDir : String
  getStreamURL : VideoInfo → Format → Except Err String
  downloadRun : VideoInfo → Format → Option Err

/-- `youtube.YouTube.EnsureStreamInfo`: a cache hit copies the cached stream
URL and duration onto the song; otherwise the video metadata is loaded, the
formats are filtered to audio ones of MIME type `audio/mp4`, and either the
file is downloaded to `OutputDir` (stream URL set to the joined path,
embedded as `dir ++ "/" ++ name`) or a stream URL is obtained from the
library; finally the metadata derived from the video info is merged in
without overriding populated fields. -/
def ensureStreamInfo (env : YtEnv) (song : Song) : Except Err Song :=
  match env.cache (keyFromID song.id) with
  | some s => .ok { song with streamURL := s.streamURL, duration := s.duration }
  | none =>
    match env.getVideo song.url with
    | .error e => .error (.wrap ("loag video metadata by url " ++ song.url) e)
    | .ok vi =>
      match vi.formats.filter (fun f => decide (0 < f.audioChannels) && f.mimeType == videoTypeAudio) with
      | [] => .error (.base (.other "unable to get list of formats"))
      | f0 :: rest =>
        if env.download then
          let format := lastFormat f0 rest
          let song2 := { song with streamURL := env.outputDir ++ "/" ++ (vi.id ++ videoFormatExt) }
          match env.downloadRun vi format with
          | some e => .error e
          | none => .ok (mergeNoOverride song2 (some (songFromInfo vi)))
        else
          let format := minByItag f0 rest
          match env.getStreamURL vi format with
          | .error e => .error (.wrap ("unable to get streamURL " ++ vi.title) e)
          | .ok u => .ok (mergeNoOverride { song with streamURL := u } (some (songFromInfo vi)))

/-- Outcome of one `player.Service.playRandomSong` run: a track was handed to
`Player.Play` (the call returns `nil`), the provider failed (the wrapped
error is returned), the provider returned an empty slice (the Go code would
panic on `songs[0]`), or the fuel ran out (the source recursion has not
returned within that many retries). -/
inductive PlayOutcome where
  | played (s : Song)
  | failed (e : Err)
  | panicked
  | diverged
deriving Repr, DecidableEq

/-- Collaborators of the radio coordinator, indexed by the call number so
successive retries may observe different responses: `provider k n` is the
`k`-th call `storage.GetRandomSongs(ctx, n)` and `resolver k s` the `k`-th
call `youtube.EnsureStreamInfo(ctx, s)`. -/
structure RadioEnv where
  provider : Nat → Nat → Except Err (List Song)
  resolver : Nat → Song → Except Err Song

/-- `player.Service.playRandomSong`: request one random song; a provider
error is wrapped and returned; if the song's stream reference is empty it is
resolved first, and a resolution failure restarts the whole procedure (the
source recurses unboundedly; here each retry consumes one unit of fuel). -/
def playRandomSong (env : RadioEnv) : Nat → Nat → PlayOutcome
  | _, 0 => .diverged
  | k, fuel + 1 =>
    match env.provider k 1 with
    | .error e => .failed (.wrap "get 1 random song from bd" e)
    | .ok [] => .panicked
    | .ok (song :: _) =>
      if song.streamURL == "" then
        match env.resolver k song with
        | .error _ => playRandomSong env (k + 1) fuel
        | .ok song2 => .played song2
      else .played song

/-- Result of `player.Service.handleError`: the radio flag afterwards, the
refill outcome when a refill ran, and the errors surfaced through the logger
by this handler. -/
structure HandleResult where
  isRadio : Bool
  outcome : Option PlayOutcome
  surfaced : List Err
deriving Repr

/-- `player.Service.handleError`, the coordinator's own subscription to the
player's error stream: on `ErrQueueEmpty` with radio enabled it refills via
`playRandomSong`, logging the failure once and disabling radio when the
refill fails; any error other than `ErrManualStop` and `io.EOF` disables
radio and is logged once; the expected termination signals are swallowed. -/
def handleError (env : RadioEnv) (isRadio : Bool) (e : Err) (fuel : Nat) : HandleResult :=
  if e.isErr .queueEmpty then
    if isRadio then
      match playRandomSong env 0 fuel with
      | .failed err =>
        { isRadio := false, outcome := some (.failed err)
          surfaced := [.wrap "radio failed" err] }
      | o => { isRadio := isRadio, outcome := some o, surfaced := [] }
    else { isRadio := isRadio, outcome := none, surfaced := [] }
  else if !(e.isErr .manualStop) && !(e.isErr .eof) then
    { isRadio := false, outcome := none, surfaced := [e] }
  else { isRadio := isRadio, outcome := none, surfaced := [] }

/-- The filtering wrapper that `player.Service.SubscribeOnErrors` registers
around an external handler `h`: `some e` means `h` is invoked with `e`,
`none` means the event is swallowed before reaching `h`. -/
def subscribeWrapper (e : Err) : Option Err :=
  if e.isErr .eof || e.isErr .manualStop || e.isErr .queueEmpty then none
  else some e

/-- Result of `player.Service.SetRadio`: the radio flag afterwards, whether
`Player.Connect` was invoked, the refill outcome when a refill ran, and the
returned error. -/
structure SetRadioResult where
  isRadio : Bool
  connectCalled : Bool
  outcome : Option PlayOutcome
  err : Option Err
deriving Repr

/-- `player.Service.SetRadio`: the flag is set to `b` first; disabling
returns immediately; enabling while disconnected requires both guild and
channel identifiers and connects; when nothing is playing the refill logic
runs at once and its provider failure is returned to the caller. -/
def serviceSetRadio (env : RadioEnv) (connected : Bool) (nowPlaying : Option Song)
    (b : Bool) (guildID channelID : String) (fuel : Nat) : SetRadioResult :=
  if !b then
    { isRadio := b, connectCalled := false, outcome := none, err := none }
  else if !connected && (guildID == "" || channelID == "") then
    { isRadio := b, connectCalled := false, outcome := none
      err := some (.base .notConnected) }
  else
    let conn := !connected
    if nowPlaying.isNone then
      match playRandomSong env 0 fuel with
      | .failed e =>
        { isRadio := b, connectCalled := conn, outcome := some (.failed e), err := some e }
      | o => { isRadio := b, connectCalled := conn, outcome := some o, err := none }
    else { isRadio := b, connectCalled := conn, outcome := none, err := none }

/-- Collaborators of `player.Service.Play`: the transport connection state,
the resolver's `FindSong`, the store's `UpsertSongIncPlaybacks` (the Go code
passes the song by pointer; the record value handed to the player and
returned to the caller is tracked, in-place mutation by the store is not
observed by any claim), and the current time written into `LastPlay`. -/
structure MusicEnv where
  isConnected : Bool
  findSong : String → Except Err Song
  upsert : Song → Except Err Int
  now : Int

/-- Result of `player.Service.Play`: the returned song, play-count and
error, whether `Connect` was invoked, the song handed to `Player.Play`
(none when playback was not started), and whether the user request was
recorded. -/
structure PlayCallResult where
  song : Option Song
  playbacks : Int
  err : Option Err
  connectCalled : Bool
  playerPlayed : Option Song
  userRecorded : Bool
deriving Repr

/-- `player.Service.Play`: fails with `ErrNotConnected` when the transport is
disconnected and either destination identifier is empty; finds the song,
connects when a destination component is supplied, stamps `LastPlay`,
records the playback (a failure is wrapped but does not stop the flow),
records the user request when a user is given, and hands the song to
`Player.Play`. -/
def servicePlay (env : MusicEnv) (query userID guildID channelID : String) : PlayCallResult :=
  if !env.isConnected && (channelID == "" || guildID == "") then
    { song := none, playbacks := 0, err := some (.base .notConnected)
      connectCalled := false, playerPlayed := none, userRecorded := false }
  else
    match env.findSong query with
    | .error e =>
      { song := none, playbacks := 0
        err := some (.wrap "find and load song from youtube" e)
        connectCalled := false, playerPlayed := none, userRecorded := false }
    | .ok found =>
      let conn := channelID != "" || guildID != ""
      let song := { found with lastPlay := env.now }
      match env.upsert song with
      | .error e =>
        { song := some song, playbacks := 0
          err := some (.wrap "upsert song with increment" e)
          connectCalled := conn, playerPlayed := some song
          userRecorded := userID != "" }
      | .ok n =>
        { song := some song, playbacks := n, err := none
          connectCalled := conn, playerPlayed := some song
          userRecorded := userID != "" }

/-- The command the coordinator forwards to the wrapped player. -/
inductive PlayerCmd where
  | stop
  | disconnect
deriving Repr, DecidableEq

/-- `player.Service.Stop`: disable radio, then forward `Stop` to the
player.  The argument is the prior radio flag. -/
def serviceStop (_isRadio : Bool) : Bool × PlayerCmd :=
  (false, .stop)

/-- `player.Service.Disconnect`: disable radio, then forward `Disconnect` to
the player.  The argument is the prior radio flag. -/
def serviceDisconnect (_isRadio : Bool) : Bool × PlayerCmd :=
  (false, .disconnect)

/-- C1: For every QueueEmpty event delivered to the coordinator while the
radio flag is enabled, the coordinator requests one random track from the
provider, resolves its stream reference via the resolver when that reference
is empty, and issues Play with the resulting track, without any caller
intervention: `handleError` on a queue-empty error with radio enabled asks
the provider for exactly one song and ends with `Play` on that song (when
its stream reference is populated) or on the resolver's output (when it is
empty and resolution succeeds). -/
theorem C1_radio_refill_on_queue_empty
    (env : RadioEnv) (e : Err) (t : Song) (rest : List Song) (fuel : Nat)
    (hq : e.isErr .queueEmpty = true)
    (hprov : env.provider 0 1 = .ok (t :: rest)) :
    (t.streamURL ≠ "" →
      (handleError env true e (fuel + 1)).outcome = some (.played t)) ∧
    (∀ t2, t.streamURL = "" → env.resolver 0 t = .ok t2 →
      (handleError env true e (fuel + 1)).outcome = some (.played t2)) := by
  constructor
  · intro ht
    have hb : (t.streamURL == "") = false := by
      simp [ht]
    simp [handleError, hq, playRandomSong, hprov, hb]
  · intro t2 ht hres
    have hb : (t.streamURL == "") = true := by
      simp [ht]
    simp [handleError, hq, playRandomSong, hprov, hb, hres]

/-- Witness for C1 at a concrete environment: a provider holding one already
resolved song. -/
def C1song : Song :=
  { title := "t", url := "u", service := "youtube", artistName := "a"
    artistURL := "", artworkURL := "", thumbnailURL := "", streamURL := "s"
    id := { id := "i", service := "youtube" }, duration := 1, playbacks := 0
    lastPlay := 0 }

/-- Concrete coordinator environment for the C1 witness. -/
def C1env : RadioEnv :=
  { provider := fun _ _ => .ok [C1song], resolver := fun _ s => .ok s }

/-- C1 witness: the theorem applied at the concrete environment. -/
theorem C1_radio_refill_on_queue_empty_witness :
    (Err.base .queueEmpty).isErr .queueEmpty = true ∧
    C1env.provider 0 1 = .ok (C1song :: []) ∧
    ((C1song.streamURL ≠ "" →
        (handleError C1env true (.base .queueEmpty) 1).outcome = some (.played C1song)) ∧
      (∀ t2, C1song.streamURL = "" → C1env.resolver 0 C1song = .ok t2 →
        (handleError C1env true (.base .queueEmpty) 1).outcome = some (.played t2))) :=
  ⟨by decide, rfl,
    C1_radio_refill_on_queue_empty C1env (.base .queueEmpty) C1song [] 0 (by decide) rfl⟩

/-- C9: After every call to the coordinator's Stop() or Disconnect(), the
radio flag is false, regardless of the flag's prior value and of the
player's prior state: `serviceStop` and `serviceDisconnect` leave the radio
flag false for every prior flag value, and only forward the corresponding
command to the wrapped player. -/
theorem C9_stop_disconnect_radio_off (r1 r2 : Bool) :
    (serviceStop r1).1 = false ∧ (serviceDisconnect r2).1 = false :=
  ⟨rfl, rfl⟩

/-- C2: For every call to Service.Play, if the voice transport is not
connected and no destination is supplied (guild or channel identifier
empty), Play fails with NotConnectedError and returns no track; when a
destination is supplied or a connection exists, Play does not fail with
NotConnectedError (the collaborators' own errors are wrapped, and assuming
their chains do not carry the sentinel, no returned error does). -/
theorem C2_play_not_connected
    (env : MusicEnv) (q u g c : String)
    (hf : ∀ q2 e, env.findSong q2 = .error e → e.isErr .notConnected = false)
    (hu : ∀ s e, env.upsert s = .error e → e.isErr .notConnected = false) :
    ((env.isConnected = false ∧ (c = "" ∨ g = "")) →
      (servicePlay env q u g c).err = some (.base .notConnected) ∧
      (servicePlay env q u g c).song = none) ∧
    ((env.isConnected = true ∨ (c ≠ "" ∧ g ≠ "")) →
      ∀ e2, (servicePlay env q u g c).err = some e2 →
        e2.isErr .notConnected = false) := by
  constructor
  · rintro ⟨hconn, hcg⟩
    have hguard : (!env.isConnected && (c == "" || g == "")) = true := by
      rcases hcg with h | h <;> simp [hconn, h]
    simp [servicePlay, hguard]
  · intro hpass e2 he
    have hguard : (!env.isConnected && (c == "" || g == "")) = false := by
      rcases hpass with h | ⟨h1, h2⟩
      · simp [h]
      · simp [h1, h2]
    cases hfind : env.findSong q with
    | error e =>
      simp [servicePlay, hguard, hfind] at he
      rw [← he]
      simpa [Err.isErr] using hf q e hfind
    | ok s =>
      cases hup : env.upsert { s with lastPlay := env.now } with
      | error e =>
        simp [servicePlay, hguard, hfind, hup] at he
        rw [← he]
        simpa [Err.isErr] using hu _ e hup
      | ok n =>
        simp [servicePlay, hguard, hfind, hup] at he

/-- Concrete song for the C2 witness. -/
def C2song : Song :=
  { title := "t2", url := "u2", service := "youtube", artistName := "a"
    artistURL := "", artworkURL := "", thumbnailURL := "", streamURL := "s"
    id := { id := "i2", service := "youtube" }, duration := 2, playbacks := 0
    lastPlay := 0 }

/-- Concrete environment for the C2 witness: connected transport, total
collaborators. -/
def C2env : MusicEnv :=
  { isConnected := true, findSong := fun _ => .ok C2song
    upsert := fun _ => .ok 3, now := 7 }

/-- C2 witness: the theorem applied at the concrete environment. -/
theorem C2_play_not_connected_witness :
    (∀ q2 e, C2env.findSong q2 = .error e → e.isErr .notConnected = false) ∧
    (∀ s e, C2env.upsert s = .error e → e.isErr .notConnected = false) ∧
    (((C2env.isConnected = false ∧ ("" = "" ∨ "" = "")) →
        (servicePlay C2env "q" "user" "" "").err = some (.base .notConnected) ∧
        (servicePlay C2env "q" "user" "" "").song = none) ∧
      ((C2env.isConnected = true ∨ ("" ≠ "" ∧ "" ≠ "")) →
        ∀ e2, (servicePlay C2env "q" "user" "" "").err = some e2 →
          e2.isErr .notConnected = false)) :=
  ⟨fun _ e h => by simp [C2env] at h,
    fun _ e h => by simp [C2env] at h,
    C2_play_not_connected C2env "q" "user" "" ""
      (fun _ e h => by simp [C2env] at h)
      (fun _ e h => by simp [C2env] at h)⟩

/-- C10: For every call to Service.Play in which the track is found and
resolved but the persistence play-count update fails, playback of the track
is still started and the call returns the track together with the
persistence error — a storage failure never prevents playback: when the
connection guard passes, FindSong succeeds and the play-count upsert fails,
the song is still handed to Player.Play and returned with the wrapped
storage error. -/
theorem C10_storage_failure_still_plays
    (env : MusicEnv) (q u g c : String) (found : Song) (e : Err)
    (hguard : env.isConnected = true ∨ (c ≠ "" ∧ g ≠ ""))
    (hfind : env.findSong q = .ok found)
    (hup : env.upsert { found with lastPlay := env.now } = .error e) :
    (servicePlay env q u g c).playerPlayed = some { found with lastPlay := env.now } ∧
    (servicePlay env q u g c).song = some { found with lastPlay := env.now } ∧
    (servicePlay env q u g c).err = some (.wrap "upsert song with increment" e) := by
  have hg : (!env.isConnected && (c == "" || g == "")) = false := by
    rcases hguard with h | ⟨h1, h2⟩
    · simp [h]
    · simp [h1, h2]
  simp [servicePlay, hg, hfind, hup]

/-- Concrete song for the C10 witness. -/
def C10song : Song :=
  { title := "t10", url := "u10", service := "youtube", artistName := "a"
    artistURL := "", artworkURL := "", thumbnailURL := "", streamURL := "s"
    id := { id := "i10", service := "youtube" }, duration := 3, playbacks := 0
    lastPlay := 0 }

/-- Concrete environment for the C10 witness: connected transport, the store
fails. -/
def C10env : MusicEnv :=
  { isConnected := true, findSong := fun _ => .ok C10song
    upsert := fun _ => .error (.base (.other "db down")), now := 9 }

/-- C10 witness: the theorem applied at the concrete environment. -/
theorem C10_storage_failure_still_plays_witness :
    (C10env.isConnected = true ∨ ("" ≠ "" ∧ "" ≠ "")) ∧
    C10env.findSong "q" = .ok C10song ∧
    C10env.upsert { C10song with lastPlay := C10env.now } = .error (.base (.other "db down")) ∧
    ((servicePlay C10env "q" "user" "" "").playerPlayed =
        some { C10song with lastPlay := C10env.now } ∧
      (servicePlay C10env "q" "user" "" "").song =
        some { C10song with lastPlay := C10env.now } ∧
      (servicePlay C10env "q" "user" "" "").err =
        some (.wrap "upsert song with increment" (.base (.other "db down")))) :=
  ⟨Or.inl rfl, rfl, rfl,
    C10_storage_failure_still_plays C10env "q" "user" "" "" C10song
      (.base (.other "db down")) (Or.inl rfl) rfl rfl⟩

/-- Concrete state for the C3 counterexample: the preloaded short cache is
empty, so `GetRandomSongs` signals provider exhaustion. -/
def C3fsState : FsState :=
  { cache := [], db := [], updated := false }

/-- Coordinator environment for the C3 counterexample: the provider is the
embedded `GetRandomSongs` over the empty short cache. -/
def C3env : RadioEnv :=
  { provider := fun _ n => (getRandomSongs C3fsState { list := [] } (fun _ => 0) n).1
    resolver := fun _ s => .ok s }

/-- C3 counterexample: enabling radio through SetRadio while connected with
nothing playing makes the provider signal `no preloaded songs`, yet the
radio flag stays true — the error is returned to the caller and the flag is
not reset, refuting the claim that the flag becomes false whenever radio is
enabled and the provider signals exhaustion. -/
theorem C3_set_radio_keeps_flag_on_exhaustion :
    (serviceSetRadio C3env true none true "g" "c" 1).isRadio = true ∧
    (serviceSetRadio C3env true none true "g" "c" 1).err =
      some (.wrap "get 1 random song from bd" (.base (.other "no preloaded songs"))) :=
  ⟨rfl, rfl⟩

/-- C3 amended: when the provider-exhaustion error arrives while the
coordinator is handling the QueueEmpty event with radio enabled, the radio
flag becomes false and the error is surfaced (logged) exactly once; when the
refill is triggered synchronously from SetRadio, the error is returned to
the caller and the flag stays true (see the counterexample). -/
theorem C3_queue_empty_exhaustion_disables_radio
    (env : RadioEnv) (e ex : Err) (fuel : Nat)
    (hq : e.isErr .queueEmpty = true)
    (hprov : env.provider 0 1 = .error ex) :
    (handleError env true e (fuel + 1)).isRadio = false ∧
    (handleError env true e (fuel + 1)).surfaced =
      [.wrap "radio failed" (.wrap "get 1 random song from bd" ex)] := by
  simp [handleError, hq, playRandomSong, hprov]

/-- C3 witness: the amended theorem applied to the concrete exhausted
provider. -/
theorem C3_queue_empty_exhaustion_disables_radio_witness :
    (Err.base .queueEmpty).isErr .queueEmpty = true ∧
    C3env.provider 0 1 = .error (.base (.other "no preloaded songs")) ∧
    ((handleError C3env true (.base .queueEmpty) 1).isRadio = false ∧
      (handleError C3env true (.base .queueEmpty) 1).surfaced =
        [.wrap "radio failed"
          (.wrap "get 1 random song from bd" (.base (.other "no preloaded songs")))]) :=
  ⟨by decide, rfl,
    C3_queue_empty_exhaustion_disables_radio C3env (.base .queueEmpty)
      (.base (.other "no preloaded songs")) 0 (by decide) rfl⟩

/-- C4: External subscribers registered through the coordinator's
error-subscription call never receive a manual-stop signal, an end-of-stream
signal, or the QueueEmpty signal — the wrapper installed by
SubscribeOnErrors swallows exactly those; every other terminal error
received while radio is enabled disables the radio flag (via the
coordinator's own handleError subscription) and is passed through the
wrapper to the coordinator's subscribers. -/
theorem C4_subscriber_filter_and_propagation
    (env : RadioEnv) (e : Err) (fuel : Nat) :
    ((e.isErr .manualStop = true ∨ e.isErr .eof = true ∨ e.isErr .queueEmpty = true) →
      subscribeWrapper e = none) ∧
    ((e.isErr .manualStop = false ∧ e.isErr .eof = false ∧ e.isErr .queueEmpty = false) →
      (handleError env true e fuel).isRadio = false ∧ subscribeWrapper e = some e) := by
  constructor
  · rintro (h | h | h) <;> simp [subscribeWrapper, h]
  · rintro ⟨h1, h2, h3⟩
    simp [subscribeWrapper, handleError, h1, h2, h3]

/-- Trivial coordinator environment for the C4 witness. -/
def C4env : RadioEnv :=
  { provider := fun _ _ => .ok [], resolver := fun _ s => .ok s }

/-- C4 witness: a stream failure is not swallowed, disables radio, and is
propagated unchanged. -/
theorem C4_subscriber_filter_and_propagation_witness :
    ((Err.base (.other "stream failure")).isErr .manualStop = false ∧
      (Err.base (.other "stream failure")).isErr .eof = false ∧
      (Err.base (.other "stream failure")).isErr .queueEmpty = false) ∧
    ((((Err.base (.other "stream failure")).isErr .manualStop = true ∨
        (Err.base (.other "stream failure")).isErr .eof = true ∨
        (Err.base (.other "stream failure")).isErr .queueEmpty = true) →
      subscribeWrapper (.base (.other "stream failure")) = none) ∧
      (((Err.base (.other "stream failure")).isErr .manualStop = false ∧
        (Err.base (.other "stream failure")).isErr .eof = false ∧
        (Err.base (.other "stream failure")).isErr .queueEmpty = false) →
        (handleError C4env true (.base (.other "stream failure")) 0).isRadio = false ∧
        subscribeWrapper (.base (.other "stream failure")) =
          some (.base (.other "stream failure")))) :=
  ⟨by decide,
    C4_subscriber_filter_and_propagation C4env (.base (.other "stream failure")) 0⟩

/-- The radio refill procedure terminates on an environment: some finite
amount of fuel suffices for `playRandomSong` to return. -/
def RadioRefillTerminates (env : RadioEnv) : Prop :=
  ∃ fuel, playRandomSong env 0 fuel ≠ .diverged

/-- Concrete unresolved song for the C5 counterexample. -/
def C5song : Song :=
  { title := "t5", url := "u5", service := "youtube", artistName := "a"
    artistURL := "", artworkURL := "", thumbnailURL := "", streamURL := ""
    id := { id := "i5", service := "youtube" }, duration := 4, playbacks := 0
    lastPlay := 0 }

/-- Coordinator environment for the C5 counterexample: the provider always
has a candidate whose stream reference is empty, and resolution always
fails — a pathological but provider-non-exhausting failure stream. -/
def C5env : RadioEnv :=
  { provider := fun _ _ => .ok [C5song]
    resolver := fun _ _ => .error (.base (.other "resolve failed")) }

/-- Under the all-failures environment every retry recurses again: no fuel
bound is ever reached. -/
theorem playRandomSong_C5env_diverges (fuel : Nat) :
    ∀ k, playRandomSong C5env k fuel = .diverged := by
  induction fuel with
  | zero => intro k; rfl
  | succ n ih =>
    intro k
    simpa [playRandomSong, C5env, C5song] using ih (k + 1)

/-- C5 counterexample: with a provider that never exhausts and a resolver
that always fails, the radio refill recursion never returns — the retry
process is unbounded recursion, not a bounded loop, refuting the claim that
it terminates under every sequence of resolution failures. -/
theorem C5_refill_can_diverge : ¬ RadioRefillTerminates C5env := by
  intro h
  obtain ⟨fuel, hf⟩ := h
  exact hf (playRandomSong_C5env_diverges fuel 0)

/-- C5 amended: each retry step is productive — the refill returns
immediately when the provider fails or when a track is resolved and played,
and it continues past a call only when that call produced an unresolved
track whose resolution failed; hence non-termination occurs only under an
unbroken infinite stream of resolution failures (the source implements the
retry as unbounded recursion, which does not terminate on such streams). -/
theorem C5_retry_step_characterization
    (env : RadioEnv) (k fuel : Nat)
    (hdiv : playRandomSong env k (fuel + 1) = .diverged) :
    ∃ s rest e2, env.provider k 1 = .ok (s :: rest) ∧ s.streamURL = "" ∧
      env.resolver k s = .error e2 ∧ playRandomSong env (k + 1) fuel = .diverged := by
  cases hprov : env.provider k 1 with
  | error e => simp [playRandomSong, hprov] at hdiv
  | ok songs =>
    cases songs with
    | nil => simp [playRandomSong, hprov] at hdiv
    | cons s rest =>
      by_cases hs : s.streamURL = ""
      · cases hres : env.resolver k s with
        | error e2 =>
          refine ⟨s, rest, e2, rfl, hs, hres, ?_⟩
          simpa [playRandomSong, hprov, hs, hres] using hdiv
        | ok s2 => simp [playRandomSong, hprov, hs, hres] at hdiv
      · simp [playRandomSong, hprov, hs] at hdiv

/-- C5 witness: the amended theorem applied to the all-failures environment
with one unit of fuel. -/
theorem C5_retry_step_characterization_witness :
    playRandomSong C5env 0 (0 + 1) = .diverged ∧
    (∃ s rest e2, C5env.provider 0 1 = .ok (s :: rest) ∧ s.streamURL = "" ∧
      C5env.resolver 0 s = .error e2 ∧ playRandomSong C5env 1 0 = .diverged) :=
  ⟨rfl, C5_retry_step_characterization C5env 0 0 rfl⟩

/-- C6: For every call SetRadio(true, destination): if the transport is
disconnected and no destination (guild or channel) is supplied, the call
fails with NotConnectedError; if disconnected and a destination is supplied,
it triggers Connect; and if nothing is currently playing (and the connection
guard passed), it immediately runs the radio refill logic — the outcome
recorded is exactly a `playRandomSong` run. -/
theorem C6_set_radio_connect_and_refill
    (env : RadioEnv) (connected : Bool) (nowPlaying : Option Song)
    (g c : String) (fuel : Nat) :
    ((connected = false ∧ (g = "" ∨ c = "")) →
      (serviceSetRadio env connected nowPlaying true g c fuel).err =
        some (.base .notConnected)) ∧
    ((connected = false ∧ g ≠ "" ∧ c ≠ "") →
      (serviceSetRadio env connected nowPlaying true g c fuel).connectCalled = true) ∧
    ((connected = true ∨ (g ≠ "" ∧ c ≠ "")) → nowPlaying = none →
      (serviceSetRadio env connected nowPlaying true g c fuel).outcome =
        some (playRandomSong env 0 fuel)) := by
  refine ⟨?_, ?_, ?_⟩
  · rintro ⟨hconn, hgc⟩
    have hguard : (!connected && (g == "" || c == "")) = true := by
      rcases hgc with h | h <;> simp [hconn, h]
    simp [serviceSetRadio, hguard]
  · rintro ⟨hconn, h1, h2⟩
    cases hplay : nowPlaying with
    | none =>
      cases ho : playRandomSong env 0 fuel <;>
        simp [serviceSetRadio, hconn, h1, h2, ho]
    | some s => simp [serviceSetRadio, hconn, h1, h2]
  · intro hpass hnow
    subst hnow
    have hguard : (!connected && (g == "" || c == "")) = false := by
      rcases hpass with h | ⟨h1, h2⟩
      · simp [h]
      · simp [h1, h2]
    have hb : (!true && (g == "" || c == "")) = false := by simp
    cases ho : playRandomSong env 0 fuel <;>
      cases connected <;>
        simp_all [serviceSetRadio, ho]

/-- C6 witness: disconnected transport with a full destination and nothing
playing. -/
theorem C6_set_radio_connect_and_refill_witness :
    (false = false ∧ "g" ≠ "" ∧ "c" ≠ "") ∧
    (((false = false ∧ ("g" = "" ∨ "c" = "")) →
        (serviceSetRadio C4env false none true "g" "c" 1).err =
          some (.base .notConnected)) ∧
      ((false = false ∧ "g" ≠ "" ∧ "c" ≠ "") →
        (serviceSetRadio C4env false none true "g" "c" 1).connectCalled = true) ∧
      ((false = true ∨ ("g" ≠ "" ∧ "c" ≠ "")) → (none : Option Song) = none →
        (serviceSetRadio C4env false none true "g" "c" 1).outcome =
          some (playRandomSong C4env 0 1))) :=
  ⟨⟨rfl, by decide, by decide⟩,
    C6_set_radio_connect_and_refill C4env false none "g" "c" 1⟩

/-- `mergeNoOverride` keeps every populated field of the base song. -/
theorem mergeNoOverride_preserves_fields (a b : Song) :
    (a.id.id ≠ "" → (mergeNoOverride a (some b)).id = a.id) ∧
    (a.title ≠ "" → (mergeNoOverride a (some b)).title = a.title) ∧
    (a.artistName ≠ "" → (mergeNoOverride a (some b)).artistName = a.artistName) ∧
    (a.artworkURL ≠ "" → (mergeNoOverride a (some b)).artworkURL = a.artworkURL) ∧
    (a.thumbnailURL ≠ "" → (mergeNoOverride a (some b)).thumbnailURL = a.thumbnailURL) := by
  refine ⟨?_, ?_, ?_, ?_, ?_⟩ <;> intro h <;> simp [mergeNoOverride, h]

/-- Cached entry for the C7 counterexample. -/
def C7cached : Song :=
  { title := "cached-title", url := "cu", service := "youtube", artistName := "ca"
    artistURL := "", artworkURL := "", thumbnailURL := ""
    streamURL := "cached-stream"
    id := { id := "i7", service := "youtube" }, duration := 9, playbacks := 0
    lastPlay := 0 }

/-- Input song for the C7 counterexample: its stream reference is already
populated. -/
def C7input : Song :=
  { title := "t7", url := "u7", service := "youtube", artistName := "a7"
    artistURL := "", artworkURL := "w7", thumbnailURL := "n7"
    streamURL := "original-stream"
    id := { id := "i7", service := "youtube" }, duration := 5, playbacks := 0
    lastPlay := 0 }

/-- Resolver environment for C7: the songs cache holds an entry for the
input identity. -/
def C7env : YtEnv :=
  { cache := fun _ => some C7cached
    getVideo := fun _ => .error (.base (.other "net"))
    download := false, outputDir := ""
    getStreamURL := fun _ _ => .error (.base (.other "net"))
    downloadRun := fun _ _ => none }

/-- C7 counterexample: EnsureStreamInfo succeeds on a track whose stream
reference is already non-empty, yet returns it with the cached stream URL
and duration in place of the originals — the cache-hit path overwrites the
populated stream reference, refuting the claim that resolution never
overrides an already-populated field. -/
theorem C7_cache_hit_overrides_stream :
    ensureStreamInfo C7env C7input =
      .ok { C7input with streamURL := "cached-stream", duration := 9 } ∧
    C7input.streamURL = "original-stream" ∧
    "original-stream" ≠ "cached-stream" := by
  refine ⟨rfl, rfl, by decide⟩

/-- C7 amended: for every track EnsureStreamInfo returns successfully, the
already-populated identity, title, artist, artwork and thumbnail fields keep
their original values.  The stream reference is always reassigned rather
than preserved: on a cache hit it is copied, together with the duration,
from the cached entry even over a populated value; on a cache miss it is set
to the freshly resolved value (the downloaded file's path, or the stream URL
obtained from the library).  On a cache miss the duration is filled from the
resolved video info only when it was unset; a populated input duration is
preserved. -/
theorem C7_resolution_field_effects
    (env : YtEnv) (s s2 : Song)
    (h : ensureStreamInfo env s = .ok s2) :
    (s.id.id ≠ "" → s2.id = s.id) ∧
    (s.title ≠ "" → s2.title = s.title) ∧
    (s.artistName ≠ "" → s2.artistName = s.artistName) ∧
    (s.artworkURL ≠ "" → s2.artworkURL = s.artworkURL) ∧
    (s.thumbnailURL ≠ "" → s2.thumbnailURL = s.thumbnailURL) ∧
    (∀ cs, env.cache (keyFromID s.id) = some cs →
      s2.streamURL = cs.streamURL ∧ s2.duration = cs.duration) ∧
    (env.cache (keyFromID s.id) = none →
      ∃ vi f0 rest,
        env.getVideo s.url = .ok vi ∧
        vi.formats.filter
          (fun f => decide (0 < f.audioChannels) && f.mimeType == videoTypeAudio) =
          f0 :: rest ∧
        (s.duration = 0 → s2.duration = vi.duration) ∧
        (s.duration ≠ 0 → s2.duration = s.duration) ∧
        (env.download = true →
          s2.streamURL = env.outputDir ++ "/" ++ (vi.id ++ videoFormatExt)) ∧
        (env.download = false →
          ∃ u, env.getStreamURL vi (minByItag f0 rest) = .ok u ∧ s2.streamURL = u)) := by
  cases hc : env.cache (keyFromID s.id) with
  | some cs =>
    simp [ensureStreamInfo, hc] at h
    subst h
    refine ⟨fun _ => rfl, fun _ => rfl, fun _ => rfl, fun _ => rfl, fun _ => rfl, ?_, ?_⟩
    · intro cs2 hcs2
      have hcc : cs = cs2 := Option.some.inj hcs2
      subst hcc
      exact ⟨rfl, rfl⟩
    · intro habs
      exact Option.noConfusion habs
  | none =>
    cases hv : env.getVideo s.url with
    | error e => simp [ensureStreamInfo, hc, hv] at h
    | ok vi =>
      cases hfil : vi.formats.filter
          (fun f => decide (0 < f.audioChannels) && f.mimeType == videoTypeAudio) with
      | nil => simp [ensureStreamInfo, hc, hv, hfil] at h
      | cons f0 rest =>
        by_cases hd : env.download
        · cases hdl : env.downloadRun vi (lastFormat f0 rest) with
          | some e => simp [ensureStreamInfo, hc, hv, hfil, hd, hdl] at h
          | none =>
            simp [ensureStreamInfo, hc, hv, hfil, hd, hdl] at h
            obtain ⟨p1, p2, p3, p4, p5⟩ :=
              mergeNoOverride_preserves_fields
                { s with streamURL := env.outputDir ++ "/" ++ (vi.id ++ videoFormatExt) }
                (songFromInfo vi)
            subst h
            refine ⟨p1, p2, p3, p4, p5, fun cs hcs => Option.noConfusion hcs, ?_⟩
            intro _
            refine ⟨vi, f0, rest, rfl, hfil, ?_, ?_, ?_, ?_⟩
            · intro h0
              simp [mergeNoOverride, songFromInfo, h0]
            · intro hne
              simp [mergeNoOverride, hne]
            · intro _
              by_cases hp : env.outputDir ++ "/" ++ (vi.id ++ videoFormatExt) = "" <;>
                simp [mergeNoOverride, songFromInfo, hp]
            · intro hfalse
              rw [hfalse] at hd
              exact Bool.noConfusion hd
        · cases hsu : env.getStreamURL vi (minByItag f0 rest) with
          | error e => simp [ensureStreamInfo, hc, hv, hfil, hd, hsu] at h
          | ok u =>
            simp [ensureStreamInfo, hc, hv, hfil, hd, hsu] at h
            obtain ⟨p1, p2, p3, p4, p5⟩ :=
              mergeNoOverride_preserves_fields { s with streamURL := u } (songFromInfo vi)
            subst h
            refine ⟨p1, p2, p3, p4, p5, fun cs hcs => Option.noConfusion hcs, ?_⟩
            intro _
            refine ⟨vi, f0, rest, rfl, hfil, ?_, ?_, ?_, ?_⟩
            · intro h0
              simp [mergeNoOverride, songFromInfo, h0]
            · intro hne
              simp [mergeNoOverride, hne]
            · intro htrue
              exact absurd htrue hd
            · intro _
              refine ⟨u, hsu, ?_⟩
              by_cases hu : u = "" <;> simp [mergeNoOverride, songFromInfo, hu]

/-- C7 witness: the amended theorem applied to the concrete cache-hit run. -/
theorem C7_resolution_field_effects_witness :
    ensureStreamInfo C7env C7input =
      .ok { C7input with streamURL := "cached-stream", duration := 9 } ∧
    ((C7input.id.id ≠ "" →
        ({ C7input with streamURL := "cached-stream", duration := 9 } : Song).id = C7input.id) ∧
      (C7input.title ≠ "" →
        ({ C7input with streamURL := "cached-stream", duration := 9 } : Song).title = C7input.title) ∧
      (C7input.artistName ≠ "" →
        ({ C7input with streamURL := "cached-stream", duration := 9 } : Song).artistName = C7input.artistName) ∧
      (C7input.artworkURL ≠ "" →
        ({ C7input with streamURL := "cached-stream", duration := 9 } : Song).artworkURL = C7input.artworkURL) ∧
      (C7input.thumbnailURL ≠ "" →
        ({ C7input with streamURL := "cached-stream", duration := 9 } : Song).thumbnailURL = C7input.thumbnailURL) ∧
      (∀ cs, C7env.cache (keyFromID C7input.id) = some cs →
        ({ C7input with streamURL := "cached-stream", duration := 9 } : Song).streamURL = cs.streamURL ∧
        ({ C7input with streamURL := "cached-stream", duration := 9 } : Song).duration = cs.duration) ∧
      (C7env.cache (keyFromID C7input.id) = none →
        ∃ vi f0 rest,
          C7env.getVideo C7input.url = .ok vi ∧
          vi.formats.filter
            (fun f => decide (0 < f.audioChannels) && f.mimeType == videoTypeAudio) =
            f0 :: rest ∧
          (C7input.duration = 0 →
            ({ C7input with streamURL := "cached-stream", duration := 9 } : Song).duration = vi.duration) ∧
          (C7input.duration ≠ 0 →
            ({ C7input with streamURL := "cached-stream", duration := 9 } : Song).duration = C7input.duration) ∧
          (C7env.download = true →
            ({ C7input with streamURL := "cached-stream", duration := 9 } : Song).streamURL =
              C7env.outputDir ++ "/" ++ (vi.id ++ videoFormatExt)) ∧
          (C7env.download = false →
            ∃ u, C7env.getStreamURL vi (minByItag f0 rest) = .ok u ∧
              ({ C7input with streamURL := "cached-stream", duration := 9 } : Song).streamURL = u))) :=
  ⟨rfl, C7_resolution_field_effects C7env C7input
    { C7input with streamURL := "cached-stream", duration := 9 } rfl⟩

/-- Updating an association list and reading back the same key yields the
written value. -/
theorem assocGet_assocSet {α β : Type} [DecidableEq α] (l : List (α × β)) (k : α) (v : β) :
    assocGet (assocSet l k v) k = some v := by
  induction l with
  | nil => simp [assocSet, assocGet]
  | cons p rest ih =>
    cases p with
    | mk a b =>
      by_cases h : a = k
      · simp [assocSet, assocGet, h]
      · simp [assocSet, assocGet, h, ih]

/-- Stored record for the C8 counterexample: play-count 2. -/
def C8stored : Song :=
  { title := "old-title", url := "", service := "youtube", artistName := ""
    artistURL := "", artworkURL := "", thumbnailURL := "", streamURL := "old-stream"
    id := { id := "x", service := "youtube" }, duration := 0, playbacks := 2
    lastPlay := 0 }

/-- Store state for the C8 counterexample: the record is stored under its
identity. -/
def C8st : FsState :=
  { cache := [], db := [({ id := "x", service := "youtube" }, C8stored)], updated := false }

/-- Incoming song for the C8 counterexample: same identity, but it already
carries a non-zero play-count. -/
def C8incoming : Song :=
  { title := "new-title", url := "u", service := "youtube", artistName := "a"
    artistURL := "", artworkURL := "", thumbnailURL := "", streamURL := "s"
    id := { id := "x", service := "youtube" }, duration := 1, playbacks := 5
    lastPlay := 1 }

/-- C8 counterexample: the stored record has play-count 2, yet a successful
UpsertSongIncPlaybacks with an incoming record that already carries
play-count 5 returns 6, not the previously stored count plus one — the
no-override merge keeps the incoming non-zero count, refuting the claim for
arbitrary incoming tracks. -/
theorem C8_nonzero_incoming_count_wins :
    (getSong C8st C8incoming.id).1 = .ok C8stored ∧
    C8stored.playbacks = 2 ∧
    (upsertSongIncPlaybacks C8st C8incoming).1 = .ok 6 ∧
    (6 : Int) ≠ 2 + 1 :=
  ⟨rfl, rfl, rfl, by decide⟩

/-- C8 amended: for every successful UpsertSongIncPlaybacks whose incoming
track has an unset (zero) play-count — the case for resolver-created
tracks — and a populated identity, the returned count is the previously
stored count plus one (one when the track was not stored), and the stored
entry is the incoming record with the stored record's fields merged in
without overriding populated fields, carrying the updated count. -/
theorem C8_upsert_inc_playbacks
    (st : FsState) (song : Song)
    (h0 : song.playbacks = 0) (hid : song.id.id ≠ "") :
    (∀ old, (getSong st song.id).1 = .ok old →
      (upsertSongIncPlaybacks st song).1 = .ok (old.playbacks + 1) ∧
      assocGet (upsertSongIncPlaybacks st song).2.db song.id =
        some { mergeNoOverride song (some old) with playbacks := old.playbacks + 1 }) ∧
    ((getSong st song.id).1 = .error (.base .notFound) →
      (upsertSongIncPlaybacks st song).1 = .ok 1 ∧
      assocGet (upsertSongIncPlaybacks st song).2.db song.id =
        some { song with playbacks := 1 }) := by
  cases hget : getSong st song.id with
  | mk r st2 =>
    cases r with
    | ok old0 =>
      constructor
      · intro old hold
        simp at hold
        subst hold
        have hkey : (mergeNoOverride song (some old0)).id = song.id := by
          simp [mergeNoOverride, hid]
        have hpb : (mergeNoOverride song (some old0)).playbacks = old0.playbacks := by
          simp [mergeNoOverride, h0]
        constructor
        · simp [upsertSongIncPlaybacks, hget, hpb]
        · simp [upsertSongIncPlaybacks, hget, setSong, hkey, hpb, assocGet_assocSet]
      · intro habs
        simp at habs
    | error e =>
      constructor
      · intro old hold
        simp at hold
      · intro hnf
        simp at hnf
        subst hnf
        constructor
        · simp [upsertSongIncPlaybacks, hget, mergeNoOverride, h0]
        · simp [upsertSongIncPlaybacks, hget, setSong, mergeNoOverride, h0,
            assocGet_assocSet]

/-- Incoming song for the C8 witness: unset play-count, populated
identity. -/
def C8fresh : Song :=
  { title := "new-title", url := "u", service := "youtube", artistName := "a"
    artistURL := "", artworkURL := "", thumbnailURL := "", streamURL := "s"
    id := { id := "x", service := "youtube" }, duration := 1, playbacks := 0
    lastPlay := 1 }

/-- C8 witness: the amended theorem applied to the concrete store state and
a fresh incoming track. -/
theorem C8_upsert_inc_playbacks_witness :
    C8fresh.playbacks = 0 ∧ C8fresh.id.id ≠ "" ∧
    ((∀ old, (getSong C8st C8fresh.id).1 = .ok old →
        (upsertSongIncPlaybacks C8st C8fresh).1 = .ok (old.playbacks + 1) ∧
        assocGet (upsertSongIncPlaybacks C8st C8fresh).2.db C8fresh.id =
          some { mergeNoOverride C8fresh (some old) with playbacks := old.playbacks + 1 }) ∧
      ((getSong C8st C8fresh.id).1 = .error (.base .notFound) →
        (upsertSongIncPlaybacks C8st C8fresh).1 = .ok 1 ∧
        assocGet (upsertSongIncPlaybacks C8st C8fresh).2.db C8fresh.id =
          some { C8fresh with playbacks := 1 })) :=
  ⟨rfl, by decide, C8_upsert_inc_playbacks C8st C8fresh rfl (by decide)⟩

end DiscordBot
